import Mathlib

/-!
# ddns: a dynamic-DNS updater (`src/ddns/main.go`)

A shallow embedding of the program's three pieces: the device observer
(`getDeviceInfo`), the change detector (the body of `main`'s loop) and the record
publisher (`createRecord`).

Conventions of the embedding:

* A Go `string` is a Lean `String`; the strings handled are well-formed UTF-8.
* The operating system and the network are inputs: the value of the override
  environment variable, the host name, the interface list and the answers of the DNS
  provider are parameters of the functions that read them.
* `log.Fatal` ends the process: a function that may call it returns an `Except`, or an
  `Outcome`, whose error case is that exit.
* Log lines are not part of the model.
-/

namespace Ddns

/-! ## Go standard library functions used by the program -/

deriving instance DecidableEq for Except

/-- Go `strings.ToLower`: every rune is mapped to its lower case. The model maps the ASCII
letters `A`..`Z` to `a`..`z`, as the library does on ASCII text; a rune outside ASCII is
left as it is. -/
def ToLower (s : String) : String :=
  ⟨s.data.map Char.toLower⟩

/-- Go `strings.HasPrefix(s, p)`: `s` begins with `p`. -/
def HasPrefix (s p : String) : Bool :=
  p.data.isPrefixOf s.data

/-- Go `strings.Contains(s, sub)`: `sub` occurs in `s`. -/
def Contains (s sub : String) : Bool :=
  s.data.tails.any (fun t => sub.data.isPrefixOf t)

/-! ## Data model -/

/-- The struct `deviceInfo` (main.go, lines 50-54). -/
structure deviceInfo where
  name : String
  IPv4 : String
  IPv6 : String
  deriving DecidableEq, Repr

/-- The zero value `deviceInfo{}`: every field is the empty string. -/
def deviceInfo.zero : deviceInfo :=
  { name := "", IPv4 := "", IPv6 := "" }

/-- The command-line configuration: the flags `interface`, `hostedZoneID` and
`subdomain` (main.go, lines 16-30), read once at start. -/
structure Config where
  interfacePrefix : String
  hostedZoneID : String
  subdomain : String
  deriving DecidableEq, Repr

/-! ## The record publisher: `createRecord` -/

/-- A `route53.ResourceRecordSet` as the program fills it: name, type, the values of its
resource records, and the TTL. -/
structure ResourceRecordSet where
  Name : String
  Type_ : String
  ResourceRecords : List String
  TTL : Int
  deriving DecidableEq, Repr

/-- A `route53.Change`: an action on one record set. -/
structure Change where
  Action : String
  ResourceRecordSet : ResourceRecordSet
  deriving DecidableEq, Repr

/-- A `route53.ChangeResourceRecordSetsInput`: the change batch (changes and comment) and
the zone it is for. -/
structure ChangeResourceRecordSetsInput where
  Changes : List Change
  Comment : String
  HostedZoneId : String
  deriving DecidableEq, Repr

/-- The DNS provider as the program sees it: whether a session can be opened, the domain
name `GetHostedZone` answers for a zone id (or its error), and the answer of
`ChangeResourceRecordSets` to a request (or its error). -/
structure Provider where
  NewSession : Except String Unit
  GetHostedZone : String → Except String String
  ChangeResourceRecordSets : ChangeResourceRecordSetsInput → Except String Unit

/-- A call made to the provider. -/
inductive Call where
  | getHostedZone (id : String)
  | changeResourceRecordSets (params : ChangeResourceRecordSetsInput)
  deriving DecidableEq, Repr

/-- How a run of `createRecord` ends: it returns (`done`), `log.Fatal` ends the process
(`fatal`), or `session.Must` panics (`panicked`). -/
inductive Outcome where
  | done
  | fatal (err : String)
  | panicked (err : String)
  deriving DecidableEq, Repr

/-- The value of `subdomainStr` (main.go, lines 83-86). -/
def subdomainStr (cfg : Config) : String :=
  if cfg.subdomain != "" then cfg.subdomain ++ "." else ""

/-- The value of `recordName` (main.go, line 88), for the domain name the zone lookup
returned. -/
def recordName (cfg : Config) (devInfo : deviceInfo) (domainName : String) : String :=
  ToLower (devInfo.name ++ "." ++ subdomainStr cfg ++ domainName)

/-- The slice `changes` at the end of main.go, lines 90-124: the A change, then the
AAAA change when `devInfo.IPv6` is not empty. -/
def buildChanges (devInfo : deviceInfo) (recordName : String) : List Change :=
  let changes : List Change := []
  let changes := changes ++ [
    { Action := "UPSERT",
      ResourceRecordSet :=
        { Name := recordName, Type_ := "A", ResourceRecords := [devInfo.IPv4], TTL := 60 } }]
  if devInfo.IPv6 != "" then
    changes ++ [
      { Action := "UPSERT",
        ResourceRecordSet :=
          { Name := recordName, Type_ := "AAAA", ResourceRecords := [devInfo.IPv6],
            TTL := 60 } }]
  else
    changes

/-- The function `createRecord` (main.go, lines 70-139): the calls it makes to the
provider, in order, and how it ends. -/
def createRecord (cfg : Config) (aws : Provider) (devInfo : deviceInfo) :
    List Call × Outcome :=
  match aws.NewSession with
  | .error e => ([], .panicked e)
  | .ok _ =>
    match aws.GetHostedZone cfg.hostedZoneID with
    | .error err => ([.getHostedZone cfg.hostedZoneID], .fatal err)
    | .ok domainName =>
      let recordName := recordName cfg devInfo domainName
      let changes := buildChanges devInfo recordName
      let params : ChangeResourceRecordSetsInput :=
        { Changes := changes, Comment := "Sample update.", HostedZoneId := cfg.hostedZoneID }
      match aws.ChangeResourceRecordSets params with
      | .error err =>
        ([.getHostedZone cfg.hostedZoneID, .changeResourceRecordSets params], .fatal err)
      | .ok _ =>
        ([.getHostedZone cfg.hostedZoneID, .changeResourceRecordSets params], .done)

/-! ## Go `net.IP` -/

/-- Go `net.IP`: a slice of bytes. The empty list stands for `nil` (and for an empty
slice, which the functions below treat the same way). -/
abbrev IP := List UInt8

/-- Go `IP.To4`: a 4-byte address as it is, the last four bytes of a 16-byte address
that is an IPv4 address mapped into IPv6 (ten zero bytes, then `ff ff`), else `nil`. -/
def To4 (ip : IP) : IP :=
  if ip.length == 4 then ip
  else if ip.length == 16 && (ip.take 10).all (fun b => b == 0) &&
      ip.getD 10 0 == 0xff && ip.getD 11 0 == 0xff then ip.drop 12
  else []

/-- Go `IP.To16`: a 4-byte address mapped into IPv6 (`net.IPv4`), a 16-byte address as
it is, else `nil`. -/
def To16 (ip : IP) : IP :=
  if ip.length == 4 then [0, 0, 0, 0, 0, 0, 0, 0, 0, 0, 0xff, 0xff] ++ ip
  else if ip.length == 16 then ip
  else []

/-- The character of a decimal or hexadecimal digit below 16. -/
def hexDigit (n : Nat) : Char :=
  "0123456789abcdef".data.getD n '0'

/-- Go `ubtoa`: the decimal digits of a byte, without leading zeros. -/
def ubtoa (v : UInt8) : List Char :=
  let v := v.toNat
  if v < 10 then [hexDigit v]
  else if v < 100 then [hexDigit (v / 10), hexDigit (v % 10)]
  else [hexDigit (v / 100), hexDigit ((v / 10) % 10), hexDigit (v % 10)]

/-- Go `hexString`: two hexadecimal digits for every byte. -/
def hexString (b : List UInt8) : List Char :=
  b.flatMap (fun tn => [hexDigit (tn.toNat >>> 4), hexDigit (tn.toNat &&& 0xf)])

/-- Go `appendHex`: the hexadecimal digits of `i`, without leading zeros, appended to
`dst`. -/
def appendHex (dst : List Char) (i : Nat) : List Char :=
  if i == 0 then dst ++ ['0']
  else
    [7, 6, 5, 4, 3, 2, 1, 0].foldl
      (fun dst j =>
        let v := i >>> (j * 4)
        if v > 0 then dst ++ [hexDigit (v &&& 0xf)] else dst)
      dst

/-- The 16-bit group of a 16-byte address that starts at byte `i`. -/
def group16 (p : IP) (i : Nat) : Nat :=
  ((p.getD i 0).toNat <<< 8) ||| (p.getD (i + 1) 0).toNat

/-- The inner loop of `IP.String`: the end of the run of zero groups that starts at
byte `j`. -/
def zeroRunEnd (p : IP) : Nat → Nat → Nat
  | 0, j => j
  | fuel + 1, j =>
    if j < 16 && p.getD j 0 == 0 && p.getD (j + 1) 0 == 0 then zeroRunEnd p fuel (j + 2)
    else j

/-- The first loop of `IP.String`: the bounds `(e0, e1)` of the first longest run of
zero groups, `(-1, -1)` when there is none. -/
def longestZeroRun (p : IP) : Nat → Nat → Int × Int → Int × Int
  | 0, _, e => e
  | fuel + 1, i, (e0, e1) =>
    if i < 16 then
      let j := zeroRunEnd p 8 i
      if j > i && (j : Int) - (i : Int) > e1 - e0 then longestZeroRun p fuel (j + 2) (i, j)
      else longestZeroRun p fuel (i + 2) (e0, e1)
    else (e0, e1)

/-- The second loop of `IP.String`: the groups in hexadecimal, colons between them,
`::` in place of the run of zeros from `e0` to `e1`. -/
def printGroups (p : IP) (e0 e1 : Int) : Nat → Nat → List Char → List Char
  | 0, _, b => b
  | fuel + 1, i, b =>
    if i < 16 then
      if (i : Int) == e0 then
        let b := b ++ [':', ':']
        let i := e1.toNat
        if i >= 16 then b
        else printGroups p e0 e1 fuel (i + 2) (appendHex b (group16 p i))
      else
        let b := if i > 0 then b ++ [':'] else b
        printGroups p e0 e1 fuel (i + 2) (appendHex b (group16 p i))
    else b

/-- Go `IP.String`: `<nil>` for an address of no byte, the dotted form of an address
that `To4` converts, the colon form of any other 16-byte address (a run of one zero
group is not shortened), and `?` followed by the bytes in hexadecimal otherwise. -/
def IP.String (ip : IP) : String :=
  if ip.length == 0 then "<nil>"
  else
    let p4 := To4 ip
    if p4.length == 4 then
      ⟨ubtoa (p4.getD 0 0) ++ ['.'] ++ ubtoa (p4.getD 1 0) ++ ['.'] ++
        ubtoa (p4.getD 2 0) ++ ['.'] ++ ubtoa (p4.getD 3 0)⟩
    else if ip.length != 16 then ⟨'?' :: hexString ip⟩
    else
      let (e0, e1) := longestZeroRun ip 8 0 (-1, -1)
      let (e0, e1) := if e1 - e0 ≤ 2 then ((-1 : Int), (-1 : Int)) else (e0, e1)
      ⟨printGroups ip e0 e1 8 0 []⟩

/-! ## The device observer: `getDeviceInfo` -/

/-- A `net.Addr` as `Interface.Addrs` returns it: a `*net.IPNet`, a `*net.IPAddr`, or
a value of another type. -/
inductive Addr where
  | IPNet (ip : IP) (mask : List UInt8)
  | IPAddr (ip : IP) (zone : String)
  | other
  deriving DecidableEq, Repr

/-- A `net.Interface` with what the program reads of it: its name and the result of
`Addrs()` (no address when that call fails). -/
structure Interface where
  Name : String
  Addrs : List Addr
  deriving DecidableEq, Repr

/-- What `getDeviceInfo` reads of its surroundings: the value of the environment
variable `BALENA_DEVICE_NAME_AT_INIT` (empty when unset), the name `os.Hostname`
returns (empty when it fails) and the result of `net.Interfaces` (no interface when it
fails). -/
structure Env where
  BALENA_DEVICE_NAME_AT_INIT : String
  Hostname : String
  Interfaces : List Interface
  deriving DecidableEq, Repr

/-- The type switch of main.go, lines 166-172: the address of an `Addr`, `nil` for a
value of another type. -/
def addrIP : Addr → IP
  | .IPNet ip _ => ip
  | .IPAddr ip _ => ip
  | .other => []

/-- The loop over the addresses of the chosen interface (main.go, lines 165-185), from
the values `(interfaceIPv4, interfaceIPv6)` held so far. -/
def scanAddrs : List Addr → String × String → String × String
  | [], acc => acc
  | addr :: addrs, (interfaceIPv4, interfaceIPv6) =>
    let ip := addrIP addr
    let interfaceIPv4 :=
      if interfaceIPv4 == "" then
        let ipv4 := To4 ip
        if ipv4 != [] then IP.String ipv4 else interfaceIPv4
      else interfaceIPv4
    let interfaceIPv6 :=
      if interfaceIPv6 == "" then
        let ipv6 := To16 ip
        if Contains (IP.String ipv6) ":" then IP.String ipv6 else interfaceIPv6
      else interfaceIPv6
    scanAddrs addrs (interfaceIPv4, interfaceIPv6)

/-- The loop over the interfaces (main.go, lines 153-187): an interface whose name does
not start with the prefix is skipped; the first one that does is scanned and the loop
ends there. -/
def scanInterfaces (interfacePrefix : String) : List Interface → String × String
  | [] => ("", "")
  | i :: ifaces =>
    if HasPrefix i.Name interfacePrefix != true then scanInterfaces interfacePrefix ifaces
    else scanAddrs i.Addrs ("", "")

/-- The function `getDeviceInfo` (main.go, lines 141-192). The error is the message of
`log.Fatal`, which ends the process. -/
def getDeviceInfo (cfg : Config) (env : Env) : Except String deviceInfo :=
  let deviceName := env.BALENA_DEVICE_NAME_AT_INIT
  let deviceName := if deviceName == "" then env.Hostname else deviceName
  if deviceName == "" then .error "Unable to determine device name"
  else
    let deviceName := ToLower deviceName
    let (interfaceIPv4, interfaceIPv6) := scanInterfaces cfg.interfacePrefix env.Interfaces
    .ok { name := deviceName, IPv4 := interfaceIPv4, IPv6 := interfaceIPv6 }

/-! ## The change detector: the loop of `main` -/

/-- The comparison in the body of `main`'s loop (main.go, lines 60-65), from the stored
state (the variable `deviceInfo` of `main`) and the observed state `curDeviceInfo`: the
state stored afterwards
and the arguments of the calls to `createRecord`, in order. -/
def mainStep (storedDeviceInfo curDeviceInfo : deviceInfo) : deviceInfo × List deviceInfo :=
  if curDeviceInfo != storedDeviceInfo then (curDeviceInfo, [curDeviceInfo])
  else (storedDeviceInfo, [])

/-- One pass of `main`'s loop up to the sleep (main.go, lines 59-65): the state is
observed, which may end the process, and compared with the stored one. -/
def mainIteration (cfg : Config) (env : Env) (storedDeviceInfo : deviceInfo) :
    Except String (deviceInfo × List deviceInfo) :=
  match getDeviceInfo cfg env with
  | .error err => .error err
  | .ok curDeviceInfo => .ok (mainStep storedDeviceInfo curDeviceInfo)

/-! ## The specification's wording of the record name -/

/-- The record name in the words of the specification: the lower-cased device name, a
dot, the subdomain and a dot when a subdomain is configured, and the domain name, the
last two as they are given. -/
def specRecordName (cfg : Config) (devInfo : deviceInfo) (domainName : String) : String :=
  ToLower devInfo.name ++ "." ++ (if cfg.subdomain = "" then "" else cfg.subdomain ++ ".") ++
    domainName

/-! ## The specification's wording of letter case and of address choice -/

/-- The IPv4 string in the words of the specification: the string of the 4-byte form of
the first address that has one, empty when no address has one. -/
def firstIPv4 (addrs : List Addr) : String :=
  match addrs.find? (fun addr => To4 (addrIP addr) != []) with
  | some addr => IP.String (To4 (addrIP addr))
  | none => ""

/-- The IPv6 string in the words of the specification: the string of the 16-byte form
of the first address for which that string holds a colon, empty when there is none. -/
def firstIPv6 (addrs : List Addr) : String :=
  match addrs.find? (fun addr => Contains (IP.String (To16 (addrIP addr))) ":") with
  | some addr => IP.String (To16 (addrIP addr))
  | none => ""

/-! ## Lemmas on the library functions -/

theorem ToLower_append (a b : String) : ToLower (a ++ b) = ToLower a ++ ToLower b := by
  apply String.ext
  simp [ToLower, String.data_append]

theorem ToLower_eq_empty_iff (s : String) : ToLower s = "" ↔ s = "" := by
  constructor
  · intro h
    have h1 : (ToLower s).data = [] := by rw [h]
    apply String.ext
    simpa [ToLower] using h1
  · intro h
    subst h
    rfl

theorem ToLower_dot : ToLower "." = "." := by decide

theorem Contains_ne_empty (s sub : String) (hsub : sub ≠ "") (h : Contains s sub = true) :
    s ≠ "" := by
  intro hs
  subst hs
  apply hsub
  apply String.ext
  have h' : sub.data.isPrefixOf ([] : List Char) = true := by
    simpa [Contains] using h
  cases hd : sub.data with
  | nil => rfl
  | cons c cs => rw [hd] at h'; simp [List.isPrefixOf] at h'

theorem To4_length (ip : IP) (h : To4 ip ≠ []) : (To4 ip).length = 4 := by
  unfold To4 at h ⊢
  by_cases h4 : (ip.length == 4) = true
  · rw [if_pos h4]
    exact beq_iff_eq.1 h4
  · rw [if_neg h4] at h ⊢
    by_cases hc : (ip.length == 16 && (ip.take 10).all (fun b => b == 0) &&
        ip.getD 10 0 == 0xff && ip.getD 11 0 == 0xff) = true
    · rw [if_pos hc]
      simp only [Bool.and_eq_true, beq_iff_eq] at hc
      rw [List.length_drop, hc.1.1.1]
    · rw [if_neg hc] at h
      exact absurd rfl h

theorem To4_of_length_four (p : IP) (h : p.length = 4) : To4 p = p := by
  simp [To4, h]

theorem IP_String_To4_ne_empty (ip : IP) (h : To4 ip ≠ []) : IP.String (To4 ip) ≠ "" := by
  have hl := To4_length ip h
  intro he
  have hd : (IP.String (To4 ip)).data = [] := by rw [he]
  unfold IP.String at hd
  rw [To4_of_length_four _ hl] at hd
  simp [hl] at hd

theorem firstIPv4_cons (addr : Addr) (addrs : List Addr) :
    firstIPv4 (addr :: addrs) =
      if To4 (addrIP addr) = [] then firstIPv4 addrs else IP.String (To4 (addrIP addr)) := by
  unfold firstIPv4
  rw [List.find?_cons]
  by_cases h : To4 (addrIP addr) = []
  · have hb : (To4 (addrIP addr) != []) = false := by simp [h]
    rw [hb, if_pos h]
  · have hb : (To4 (addrIP addr) != []) = true := by simp [h]
    rw [hb, if_neg h]

theorem firstIPv6_cons (addr : Addr) (addrs : List Addr) :
    firstIPv6 (addr :: addrs) =
      if Contains (IP.String (To16 (addrIP addr))) ":" = true then
        IP.String (To16 (addrIP addr))
      else firstIPv6 addrs := by
  unfold firstIPv6
  rw [List.find?_cons]
  by_cases h : Contains (IP.String (To16 (addrIP addr))) ":" = true
  · rw [h, if_pos rfl]
  · have hb : Contains (IP.String (To16 (addrIP addr))) ":" = false := by simpa using h
    rw [hb, if_neg (by simp)]

theorem scanAddrs_eq (addrs : List Addr) :
    ∀ interfaceIPv4 interfaceIPv6 : String,
      scanAddrs addrs (interfaceIPv4, interfaceIPv6) =
        (if interfaceIPv4 = "" then firstIPv4 addrs else interfaceIPv4,
         if interfaceIPv6 = "" then firstIPv6 addrs else interfaceIPv6) := by
  induction addrs with
  | nil =>
    intro v4 v6
    by_cases h4 : v4 = "" <;> by_cases h6 : v6 = "" <;>
      simp [scanAddrs, firstIPv4, firstIPv6, h4, h6]
  | cons addr addrs ih =>
    intro v4 v6
    unfold scanAddrs
    simp only [beq_iff_eq, bne_iff_ne, ne_eq, ite_not]
    rw [ih, firstIPv4_cons, firstIPv6_cons]
    congr 1
    · by_cases h4 : v4 = ""
      · by_cases ht : To4 (addrIP addr) = []
        · simp [h4, ht]
        · simp [h4, ht, IP_String_To4_ne_empty _ ht]
      · simp [h4]
    · by_cases h6 : v6 = ""
      · by_cases ht : Contains (IP.String (To16 (addrIP addr))) ":" = true
        · simp [h6, ht, Contains_ne_empty _ ":" (by decide) ht]
        · simp [h6, ht]
      · simp [h6]

theorem firstIPv4_append (pre : List Addr) (addr : Addr) (rest : List Addr)
    (hpre : ∀ a ∈ pre, To4 (addrIP a) = []) (h : To4 (addrIP addr) ≠ []) :
    firstIPv4 (pre ++ addr :: rest) = IP.String (To4 (addrIP addr)) := by
  induction pre with
  | nil => rw [List.nil_append, firstIPv4_cons, if_neg h]
  | cons a pre ih =>
    have ha : To4 (addrIP a) = [] := hpre a (List.mem_cons_self _ _)
    rw [List.cons_append, firstIPv4_cons, if_pos ha]
    exact ih (fun b hb => hpre b (List.mem_cons_of_mem _ hb))

theorem firstIPv6_append (pre : List Addr) (addr : Addr) (rest : List Addr)
    (hpre : ∀ a ∈ pre, Contains (IP.String (To16 (addrIP a))) ":" = false)
    (h : Contains (IP.String (To16 (addrIP addr))) ":" = true) :
    firstIPv6 (pre ++ addr :: rest) = IP.String (To16 (addrIP addr)) := by
  induction pre with
  | nil => rw [List.nil_append, firstIPv6_cons, if_pos h]
  | cons a pre ih =>
    have ha := hpre a (List.mem_cons_self _ _)
    rw [List.cons_append, firstIPv6_cons, if_neg (by simp [ha])]
    exact ih (fun b hb => hpre b (List.mem_cons_of_mem _ hb))

theorem firstIPv4_none (addrs : List Addr) (h : ∀ a ∈ addrs, To4 (addrIP a) = []) :
    firstIPv4 addrs = "" := by
  induction addrs with
  | nil => rfl
  | cons a addrs ih =>
    have ha : To4 (addrIP a) = [] := h a (List.mem_cons_self _ _)
    rw [firstIPv4_cons, if_pos ha]
    exact ih (fun b hb => h b (List.mem_cons_of_mem _ hb))

theorem firstIPv6_none (addrs : List Addr)
    (h : ∀ a ∈ addrs, Contains (IP.String (To16 (addrIP a))) ":" = false) :
    firstIPv6 addrs = "" := by
  induction addrs with
  | nil => rfl
  | cons a addrs ih =>
    have ha := h a (List.mem_cons_self _ _)
    rw [firstIPv6_cons, if_neg (by simp [ha])]
    exact ih (fun b hb => h b (List.mem_cons_of_mem _ hb))

theorem scanInterfaces_skip (pfx : String) (pre rest : List Interface)
    (hpre : ∀ j ∈ pre, HasPrefix j.Name pfx = false) :
    scanInterfaces pfx (pre ++ rest) = scanInterfaces pfx rest := by
  induction pre with
  | nil => rfl
  | cons j pre ih =>
    have hj : HasPrefix j.Name pfx = false := hpre j (List.mem_cons_self _ _)
    have ih' := ih (fun k hk => hpre k (List.mem_cons_of_mem _ hk))
    simp only [List.cons_append, scanInterfaces, hj]
    simpa using ih'

/-! ## The record publisher -/

/-- C1, as the specification words it, fails: for the device `Foo`, the subdomain `Home`
and the zone domain `example.com.`, `createRecord` composes `foo.home.example.com.`,
where the specification's formula keeps the subdomain as given and yields
`foo.Home.example.com.`. -/
theorem recordName_differs_from_spec :
    recordName ⟨"wlan", "Z1", "Home"⟩ ⟨"Foo", "", ""⟩ "example.com." = "foo.home.example.com." ∧
    specRecordName ⟨"wlan", "Z1", "Home"⟩ ⟨"Foo", "", ""⟩ "example.com." =
      "foo.Home.example.com." ∧
    recordName ⟨"wlan", "Z1", "Home"⟩ ⟨"Foo", "", ""⟩ "example.com." ≠
      specRecordName ⟨"wlan", "Z1", "Home"⟩ ⟨"Foo", "", ""⟩ "example.com." := by
  decide

/-- C1, amended: for every device name, subdomain and domain name, the record name
`createRecord` composes is the lower case of the whole of
`deviceName + "." + (subdomain + "." when the subdomain is not empty) + domainName`,
that is, the lower-cased device name, a dot, the lower-cased subdomain and a dot when a
subdomain is configured, and the lower-cased domain name. It is the specification's
formula whenever the subdomain and the domain name hold no capital letter; the device
`Foo` with the zone domain `example.com.` gives `foo.example.com.` without a subdomain
and `foo.home.example.com.` with the subdomain `home`. -/
theorem recordName_lowercases_whole_name (cfg : Config) (devInfo : deviceInfo)
    (domainName : String) :
    recordName cfg devInfo domainName =
        ToLower (devInfo.name ++ "." ++
          (if cfg.subdomain = "" then "" else cfg.subdomain ++ ".") ++ domainName) ∧
    recordName cfg devInfo domainName =
        ToLower devInfo.name ++ "." ++
          (if cfg.subdomain = "" then "" else ToLower cfg.subdomain ++ ".") ++
          ToLower domainName ∧
    (ToLower cfg.subdomain = cfg.subdomain → ToLower domainName = domainName →
      recordName cfg devInfo domainName = specRecordName cfg devInfo domainName) ∧
    recordName ⟨cfg.interfacePrefix, cfg.hostedZoneID, ""⟩ ⟨"Foo", devInfo.IPv4, devInfo.IPv6⟩
        "example.com." = "foo.example.com." ∧
    recordName ⟨cfg.interfacePrefix, cfg.hostedZoneID, "home"⟩
        ⟨"Foo", devInfo.IPv4, devInfo.IPv6⟩ "example.com." = "foo.home.example.com." := by
  have key : recordName cfg devInfo domainName =
      ToLower devInfo.name ++ "." ++
        (if cfg.subdomain = "" then "" else ToLower cfg.subdomain ++ ".") ++
        ToLower domainName := by
    unfold recordName subdomainStr
    by_cases h : cfg.subdomain = ""
    · simp [h, ToLower_append, ToLower_dot]
    · simp [h, ToLower_append, ToLower_dot]
  refine ⟨?_, key, ?_, rfl, rfl⟩
  · unfold recordName subdomainStr
    by_cases h : cfg.subdomain = "" <;> simp [h]
  · intro hs hd
    rw [key, hs, hd]
    rfl

/-- C2: when the session opens and the zone lookup answers `domainName`, `createRecord`
makes the lookup and then one submission whose changes are exactly: one `UPSERT` of
type `A` for the composed record name with the IPv4 string as value (whatever it is,
the empty string included) and TTL 60, followed, exactly when the IPv6 string is not
empty, by one `UPSERT` of type `AAAA` for the same name with the IPv6 string as value
and TTL 60. The batch holds one change when IPv6 is empty and two when it is not. -/
theorem createRecord_changes (cfg : Config) (aws : Provider) (devInfo : deviceInfo)
    (domainName : String) (hs : aws.NewSession = .ok ())
    (hz : aws.GetHostedZone cfg.hostedZoneID = .ok domainName) :
    ∃ params : ChangeResourceRecordSetsInput,
      (createRecord cfg aws devInfo).1 =
        [.getHostedZone cfg.hostedZoneID, .changeResourceRecordSets params] ∧
      params.HostedZoneId = cfg.hostedZoneID ∧
      params.Changes =
        ⟨"UPSERT", ⟨recordName cfg devInfo domainName, "A", [devInfo.IPv4], 60⟩⟩ ::
          (if devInfo.IPv6 = "" then []
           else [⟨"UPSERT", ⟨recordName cfg devInfo domainName, "AAAA", [devInfo.IPv6], 60⟩⟩]) ∧
      (devInfo.IPv6 = "" → params.Changes.length = 1) ∧
      (devInfo.IPv6 ≠ "" → params.Changes.length = 2) := by
  refine ⟨⟨buildChanges devInfo (recordName cfg devInfo domainName), "Sample update.",
    cfg.hostedZoneID⟩, ?_, rfl, ?_, ?_, ?_⟩
  · unfold createRecord
    rw [hs, hz]
    dsimp only
    cases aws.ChangeResourceRecordSets _ <;> rfl
  · unfold buildChanges
    by_cases h : devInfo.IPv6 = "" <;> simp [h]
  · intro h
    simp [buildChanges, h]
  · intro h
    simp [buildChanges, h]

/-- C2 at a concrete input: the state `foo`, `192.168.1.5`, `fe80::1` under the zone
`example.com.`. -/
theorem createRecord_changes_witness :
    ∃ params : ChangeResourceRecordSetsInput,
      (createRecord ⟨"wlan", "Z1", ""⟩
          ⟨.ok (), fun _ => .ok "example.com.", fun _ => .ok ()⟩
          ⟨"foo", "192.168.1.5", "fe80::1"⟩).1 =
        [.getHostedZone "Z1", .changeResourceRecordSets params] ∧
      params.Changes =
        [⟨"UPSERT", ⟨"foo.example.com.", "A", ["192.168.1.5"], 60⟩⟩,
         ⟨"UPSERT", ⟨"foo.example.com.", "AAAA", ["fe80::1"], 60⟩⟩] := by
  obtain ⟨params, h1, _, h3, _, _⟩ :=
    createRecord_changes ⟨"wlan", "Z1", ""⟩
      ⟨.ok (), fun _ => .ok "example.com.", fun _ => .ok ()⟩
      ⟨"foo", "192.168.1.5", "fe80::1"⟩ "example.com." rfl rfl
  exact ⟨params, h1, by rw [h3]; decide⟩

/-- C8: once the session is open, `createRecord` never repeats a call to the provider.
When the zone lookup fails the process ends (`fatal`) after that one lookup and no
submission; when the lookup succeeds and the submission fails the process ends after one
lookup and one submission; when both succeed the function returns after one lookup and
one submission, which carries all the changes in one batch. -/
theorem createRecord_no_retry (cfg : Config) (aws : Provider) (devInfo : deviceInfo)
    (hs : aws.NewSession = .ok ()) :
    (∀ err, aws.GetHostedZone cfg.hostedZoneID = .error err →
      createRecord cfg aws devInfo = ([.getHostedZone cfg.hostedZoneID], .fatal err)) ∧
    (∀ domainName, aws.GetHostedZone cfg.hostedZoneID = .ok domainName →
      ∀ params : ChangeResourceRecordSetsInput,
        params = ⟨buildChanges devInfo (recordName cfg devInfo domainName), "Sample update.",
          cfg.hostedZoneID⟩ →
        (∀ err, aws.ChangeResourceRecordSets params = .error err →
          createRecord cfg aws devInfo =
            ([.getHostedZone cfg.hostedZoneID, .changeResourceRecordSets params],
              .fatal err)) ∧
        (aws.ChangeResourceRecordSets params = .ok () →
          createRecord cfg aws devInfo =
            ([.getHostedZone cfg.hostedZoneID, .changeResourceRecordSets params], .done))) := by
  constructor
  · intro err hz
    unfold createRecord
    rw [hs, hz]
  · intro domainName hz params hp
    subst hp
    constructor
    · intro err hc
      unfold createRecord
      rw [hs, hz]
      dsimp only
      rw [hc]
    · intro hc
      unfold createRecord
      rw [hs, hz]
      dsimp only
      rw [hc]

/-- C8 at concrete inputs: a provider whose lookup fails, one whose submission fails and
one that accepts both calls. -/
theorem createRecord_no_retry_witness :
    createRecord ⟨"wlan", "Z1", ""⟩ ⟨.ok (), fun _ => .error "no zone", fun _ => .ok ()⟩
        ⟨"foo", "192.168.1.5", ""⟩ =
      ([.getHostedZone "Z1"], .fatal "no zone") ∧
    createRecord ⟨"wlan", "Z1", ""⟩
        ⟨.ok (), fun _ => .ok "example.com.", fun _ => .error "rejected"⟩
        ⟨"foo", "192.168.1.5", ""⟩ =
      ([.getHostedZone "Z1",
        .changeResourceRecordSets
          ⟨[⟨"UPSERT", ⟨"foo.example.com.", "A", ["192.168.1.5"], 60⟩⟩], "Sample update.",
            "Z1"⟩],
        .fatal "rejected") ∧
    createRecord ⟨"wlan", "Z1", ""⟩ ⟨.ok (), fun _ => .ok "example.com.", fun _ => .ok ()⟩
        ⟨"foo", "192.168.1.5", ""⟩ =
      ([.getHostedZone "Z1",
        .changeResourceRecordSets
          ⟨[⟨"UPSERT", ⟨"foo.example.com.", "A", ["192.168.1.5"], 60⟩⟩], "Sample update.",
            "Z1"⟩],
        .done) := by
  refine ⟨?_, ?_, ?_⟩
  · exact (createRecord_no_retry ⟨"wlan", "Z1", ""⟩
      ⟨.ok (), fun _ => .error "no zone", fun _ => .ok ()⟩ ⟨"foo", "192.168.1.5", ""⟩ rfl).1
      "no zone" rfl
  · exact ((createRecord_no_retry ⟨"wlan", "Z1", ""⟩
      ⟨.ok (), fun _ => .ok "example.com.", fun _ => .error "rejected"⟩
      ⟨"foo", "192.168.1.5", ""⟩ rfl).2 "example.com." rfl _ (by decide)).1 "rejected" rfl
  · exact ((createRecord_no_retry ⟨"wlan", "Z1", ""⟩
      ⟨.ok (), fun _ => .ok "example.com.", fun _ => .ok ()⟩
      ⟨"foo", "192.168.1.5", ""⟩ rfl).2 "example.com." rfl _ (by decide)).2 rfl

/-! ## The change detector -/

/-- C3: from the all-empty stored state, a step that observes a state which is not
all-empty calls the record publisher exactly once, with the observed state, and stores
the observed state. -/
theorem mainStep_from_zero (curDeviceInfo : deviceInfo)
    (h : curDeviceInfo ≠ deviceInfo.zero) :
    mainStep deviceInfo.zero curDeviceInfo = (curDeviceInfo, [curDeviceInfo]) := by
  simp [mainStep, h]

/-- C3 at a concrete input: the first observation `foo`, `192.168.1.5`, no IPv6. -/
theorem mainStep_from_zero_witness :
    (⟨"foo", "192.168.1.5", ""⟩ : deviceInfo) ≠ deviceInfo.zero ∧
    mainStep deviceInfo.zero ⟨"foo", "192.168.1.5", ""⟩ =
      (⟨"foo", "192.168.1.5", ""⟩, [⟨"foo", "192.168.1.5", ""⟩]) :=
  ⟨by decide, mainStep_from_zero ⟨"foo", "192.168.1.5", ""⟩ (by decide)⟩

/-- C4: whatever the stored state, after a step that observes `s` the stored state is
`s`, and a second step that observes the same `s` calls the record publisher zero times
and leaves the stored state equal to `s`. -/
theorem mainStep_twice_same (storedDeviceInfo s : deviceInfo) :
    (mainStep storedDeviceInfo s).1 = s ∧
    mainStep (mainStep storedDeviceInfo s).1 s = (s, []) := by
  have h1 : (mainStep storedDeviceInfo s).1 = s := by
    unfold mainStep
    by_cases h : s = storedDeviceInfo <;> simp [h]
  refine ⟨h1, ?_⟩
  rw [h1]
  simp [mainStep]

/-! ## The device observer -/

/-- The result of `getDeviceInfo` in closed form. -/
theorem getDeviceInfo_eq (cfg : Config) (env : Env) :
    getDeviceInfo cfg env =
      if (if env.BALENA_DEVICE_NAME_AT_INIT = "" then env.Hostname
          else env.BALENA_DEVICE_NAME_AT_INIT) = "" then
        .error "Unable to determine device name"
      else
        .ok ⟨ToLower (if env.BALENA_DEVICE_NAME_AT_INIT = "" then env.Hostname
              else env.BALENA_DEVICE_NAME_AT_INIT),
            (scanInterfaces cfg.interfacePrefix env.Interfaces).1,
            (scanInterfaces cfg.interfacePrefix env.Interfaces).2⟩ := by
  unfold getDeviceInfo
  simp only [beq_iff_eq]

/-- C5: `main` starts from the all-empty state, and whenever `getDeviceInfo` returns, the
state it returns is not the all-empty one (its name is not empty), so the first pass of
the loop calls `createRecord`, once, with that state. -/
theorem first_iteration_publishes (cfg : Config) (env : Env) (d : deviceInfo)
    (h : getDeviceInfo cfg env = .ok d) :
    deviceInfo.zero = ⟨"", "", ""⟩ ∧ d.name ≠ "" ∧ d ≠ deviceInfo.zero ∧
    mainIteration cfg env deviceInfo.zero = .ok (d, [d]) := by
  have hname : d.name ≠ "" := by
    rw [getDeviceInfo_eq] at h
    by_cases hr : (if env.BALENA_DEVICE_NAME_AT_INIT = "" then env.Hostname
        else env.BALENA_DEVICE_NAME_AT_INIT) = ""
    · rw [if_pos hr] at h
      exact Except.noConfusion h
    · rw [if_neg hr] at h
      injection h with h
      subst h
      intro hl
      exact hr ((ToLower_eq_empty_iff _).1 hl)
  have hd : d ≠ deviceInfo.zero := by
    intro hz
    apply hname
    rw [hz]
    rfl
  refine ⟨rfl, hname, hd, ?_⟩
  unfold mainIteration
  rw [h]
  simp [mainStep, hd]

/-- C5 at a concrete input: the host `MyHost` with no interface at all. -/
theorem first_iteration_publishes_witness :
    getDeviceInfo ⟨"wlan", "Z1", ""⟩ ⟨"", "MyHost", []⟩ = .ok ⟨"myhost", "", ""⟩ ∧
    mainIteration ⟨"wlan", "Z1", ""⟩ ⟨"", "MyHost", []⟩ deviceInfo.zero =
      .ok (⟨"myhost", "", ""⟩, [⟨"myhost", "", ""⟩]) :=
  ⟨by decide,
    (first_iteration_publishes ⟨"wlan", "Z1", ""⟩ ⟨"", "MyHost", []⟩ ⟨"myhost", "", ""⟩
      (by decide)).2.2.2⟩

/-- C9: the device name is the override when the override is not empty and the host
name otherwise, lower-cased; `getDeviceInfo` ends the process exactly when both the
override and the host name are empty, and returns a state otherwise. -/
theorem getDeviceInfo_name (cfg : Config) (env : Env) :
    ((∃ err, getDeviceInfo cfg env = .error err) ↔
      (env.BALENA_DEVICE_NAME_AT_INIT = "" ∧ env.Hostname = "")) ∧
    ((∃ d, getDeviceInfo cfg env = .ok d) ↔
      ¬ (env.BALENA_DEVICE_NAME_AT_INIT = "" ∧ env.Hostname = "")) ∧
    (∀ d, getDeviceInfo cfg env = .ok d →
      d.name = ToLower (if env.BALENA_DEVICE_NAME_AT_INIT ≠ "" then
        env.BALENA_DEVICE_NAME_AT_INIT else env.Hostname)) := by
  rw [getDeviceInfo_eq]
  by_cases ho : env.BALENA_DEVICE_NAME_AT_INIT = ""
  · by_cases hh : env.Hostname = ""
    · simp [ho, hh]
    · simp only [ho, hh, if_true, if_false, not_true, not_false_eq_true, and_false, and_true,
        ne_eq]
      refine ⟨?_, ?_, ?_⟩
      · simp
      · simp
      · intro d h
        injection h with h
        subst h
        rfl
  · simp only [ho, if_true, if_false, not_true, not_false_eq_true, false_and, ne_eq]
    refine ⟨?_, ?_, ?_⟩
    · simp
    · simp
    · intro d h
      injection h with h
      subst h
      rfl

/-- C7: when a device name is found and no interface of `pre` has a name that starts
with the prefix, then for an interface `i` whose name does, `getDeviceInfo` on the
interfaces `pre`, `i`, `rest` returns the addresses extracted from the address list of
`i` alone, whatever `rest` holds and whatever that extraction yields; and on the
interfaces `pre` alone, where none matches, it returns, with no fatal exit, a state
whose two address fields are empty. -/
theorem getDeviceInfo_first_matching_interface (cfg : Config) (override hostname : String)
    (pre : List Interface) (i : Interface) (rest : List Interface)
    (hname : ¬ (override = "" ∧ hostname = ""))
    (hpre : ∀ j ∈ pre, HasPrefix j.Name cfg.interfacePrefix = false) :
    (HasPrefix i.Name cfg.interfacePrefix = true →
      getDeviceInfo cfg ⟨override, hostname, pre ++ i :: rest⟩ =
        .ok ⟨ToLower (if override = "" then hostname else override),
          (scanAddrs i.Addrs ("", "")).1, (scanAddrs i.Addrs ("", "")).2⟩) ∧
    getDeviceInfo cfg ⟨override, hostname, pre⟩ =
      .ok ⟨ToLower (if override = "" then hostname else override), "", ""⟩ := by
  have hr : ¬ (if override = "" then hostname else override) = "" := by
    by_cases ho : override = ""
    · simpa [ho] using hname
    · simp [ho]
  constructor
  · intro hi
    rw [getDeviceInfo_eq]
    simp only [hr, if_false]
    rw [scanInterfaces_skip _ _ _ hpre]
    simp [scanInterfaces, hi]
  · rw [getDeviceInfo_eq]
    simp only [hr, if_false]
    have h := scanInterfaces_skip cfg.interfacePrefix pre [] hpre
    rw [List.append_nil] at h
    rw [h]
    rfl

/-- C7 at a concrete input: `eth0` does not match, `wlan0` matches and has no address,
`wlan1` matches too and has one: both address fields stay empty. -/
theorem getDeviceInfo_first_matching_interface_witness :
    getDeviceInfo ⟨"wlan", "Z1", ""⟩
        ⟨"", "MyHost",
          [⟨"eth0", [.IPNet [10, 0, 0, 1] []]⟩, ⟨"wlan0", []⟩,
           ⟨"wlan1", [.IPNet [10, 0, 0, 2] []]⟩]⟩ =
      .ok ⟨"myhost", "", ""⟩ ∧
    getDeviceInfo ⟨"wlan", "Z1", ""⟩ ⟨"", "MyHost", [⟨"eth0", [.IPNet [10, 0, 0, 1] []]⟩]⟩ =
      .ok ⟨"myhost", "", ""⟩ := by
  have h := getDeviceInfo_first_matching_interface ⟨"wlan", "Z1", ""⟩ "" "MyHost"
    [⟨"eth0", [.IPNet [10, 0, 0, 1] []]⟩] ⟨"wlan0", []⟩ [⟨"wlan1", [.IPNet [10, 0, 0, 2] []]⟩]
    (by decide) (by decide)
  exact ⟨h.1 (by decide), h.2⟩

/-- C10: over any address list, the IPv4 string the loop ends with is the string of the
4-byte form of the first address that has one, and the IPv6 string is the string of the
16-byte form of the first address for which that string holds a colon; each is empty
when no address qualifies. Neither choice depends on the other, and what follows the
first address that qualifies does not change the choice. -/
theorem scanAddrs_first_of_each_family (addrs : List Addr) :
    scanAddrs addrs ("", "") = (firstIPv4 addrs, firstIPv6 addrs) ∧
    (∀ interfaceIPv6, (scanAddrs addrs ("", interfaceIPv6)).1 = firstIPv4 addrs) ∧
    (∀ interfaceIPv4, (scanAddrs addrs (interfaceIPv4, "")).2 = firstIPv6 addrs) ∧
    (∀ pre addr rest, addrs = pre ++ addr :: rest →
      (∀ a ∈ pre, To4 (addrIP a) = []) → To4 (addrIP addr) ≠ [] →
      (scanAddrs addrs ("", "")).1 = IP.String (To4 (addrIP addr))) ∧
    (∀ pre addr rest, addrs = pre ++ addr :: rest →
      (∀ a ∈ pre, Contains (IP.String (To16 (addrIP a))) ":" = false) →
      Contains (IP.String (To16 (addrIP addr))) ":" = true →
      (scanAddrs addrs ("", "")).2 = IP.String (To16 (addrIP addr))) ∧
    ((∀ a ∈ addrs, To4 (addrIP a) = []) → (scanAddrs addrs ("", "")).1 = "") ∧
    ((∀ a ∈ addrs, Contains (IP.String (To16 (addrIP a))) ":" = false) →
      (scanAddrs addrs ("", "")).2 = "") := by
  refine ⟨?_, ?_, ?_, ?_, ?_, ?_, ?_⟩
  · rw [scanAddrs_eq]
    simp
  · intro v6
    rw [scanAddrs_eq]
    simp
  · intro v4
    rw [scanAddrs_eq]
    simp
  · intro pre addr rest he hpre h
    rw [scanAddrs_eq, he]
    simpa using firstIPv4_append pre addr rest hpre h
  · intro pre addr rest he hpre h
    rw [scanAddrs_eq, he]
    simpa using firstIPv6_append pre addr rest hpre h
  · intro h
    rw [scanAddrs_eq]
    simp [firstIPv4_none addrs h]
  · intro h
    rw [scanAddrs_eq]
    simp [firstIPv6_none addrs h]

/-- C10 at a concrete input: a link-local IPv6 address, then two IPv4 addresses, then a
global IPv6 address: the first of each family is kept. -/
theorem scanAddrs_first_of_each_family_witness :
    scanAddrs
        [.IPNet [0xfe, 0x80, 0, 0, 0, 0, 0, 0, 0, 0, 0, 0, 0, 0, 0, 1] [],
         .IPNet [192, 168, 1, 5] [], .IPAddr [192, 168, 1, 6] "",
         .IPNet [0x20, 0x01, 0x0d, 0xb8, 0, 0, 0, 0, 0, 0, 0, 0, 0, 0, 0, 1] []]
        ("", "") = ("192.168.1.5", "fe80::1") := by
  rw [(scanAddrs_first_of_each_family _).1]
  decide

/-- C9 at concrete inputs: an override and a host name, a host name alone, and
neither. -/
theorem getDeviceInfo_name_witness :
    getDeviceInfo ⟨"wlan", "Z1", ""⟩ ⟨"Balena-Pi", "MyHost", []⟩ = .ok ⟨"balena-pi", "", ""⟩ ∧
    getDeviceInfo ⟨"wlan", "Z1", ""⟩ ⟨"", "MyHost", []⟩ = .ok ⟨"myhost", "", ""⟩ ∧
    ∃ err, getDeviceInfo ⟨"wlan", "Z1", ""⟩ ⟨"", "", []⟩ = .error err :=
  ⟨by decide, by decide,
    (getDeviceInfo_name ⟨"wlan", "Z1", ""⟩ ⟨"", "", []⟩).1.2 ⟨rfl, rfl⟩⟩

/-- C4 at a concrete input: the state `foo`, `192.168.1.5` observed twice from the
all-empty stored state. -/
theorem mainStep_twice_same_witness :
    mainStep deviceInfo.zero ⟨"foo", "192.168.1.5", ""⟩ =
      (⟨"foo", "192.168.1.5", ""⟩, [⟨"foo", "192.168.1.5", ""⟩]) ∧
    mainStep (mainStep deviceInfo.zero ⟨"foo", "192.168.1.5", ""⟩).1 ⟨"foo", "192.168.1.5", ""⟩ =
      (⟨"foo", "192.168.1.5", ""⟩, []) :=
  ⟨by decide, (mainStep_twice_same deviceInfo.zero ⟨"foo", "192.168.1.5", ""⟩).2⟩

/-! ## The library model on known values -/

theorem IP_String_examples :
    IP.String [192, 168, 1, 5] = "192.168.1.5" ∧
    IP.String [] = "<nil>" ∧
    IP.String (To16 [10, 0, 0, 7]) = "10.0.0.7" ∧
    IP.String [0xfe, 0x80, 0, 0, 0, 0, 0, 0, 0, 0, 0, 0, 0, 0, 0, 1] = "fe80::1" ∧
    IP.String [0, 0, 0, 0, 0, 0, 0, 0, 0, 0, 0, 0, 0, 0, 0, 0] = "::" ∧
    IP.String [0, 0, 0, 0, 0, 0, 0, 0, 0, 0, 0, 0, 0, 0, 0, 1] = "::1" ∧
    IP.String [0x20, 0x01, 0x0d, 0xb8, 0, 0, 0, 0, 0, 0, 0, 0, 0, 0, 0, 1] = "2001:db8::1" ∧
    IP.String [0, 1, 0, 0, 0, 0, 0, 2, 0, 0, 0, 0, 0, 0, 0, 3] = "1:0:0:2::3" ∧
    IP.String [0, 1, 0, 0, 0, 0, 0, 0, 0, 2, 0, 0, 0, 0, 0, 0] = "1::2:0:0:0" ∧
    IP.String [0, 1, 0, 0, 0, 2, 0, 3, 0, 4, 0, 5, 0, 6, 0, 7] = "1:0:2:3:4:5:6:7" ∧
    IP.String [0, 1, 0, 2, 0, 3, 0, 4, 0, 5, 0, 6, 0, 0, 0, 0] = "1:2:3:4:5:6::" ∧
    IP.String [1, 2, 3] = "?010203" := by
  decide

theorem strings_examples :
    ToLower "Foo.Example.COM." = "foo.example.com." ∧
    HasPrefix "wlan0" "wlan" = true ∧ HasPrefix "eth0" "wlan" = false ∧
    HasPrefix "wlan0" "" = true ∧
    Contains "fe80::1" ":" = true ∧ Contains "10.0.0.1" ":" = false := by
  decide

theorem getDeviceInfo_example :
    getDeviceInfo ⟨"wlan", "Z1", ""⟩
        ⟨"", "MyHost",
          [⟨"eth0", [.IPNet [10, 0, 0, 1] []]⟩,
           ⟨"wlan0",
             [.IPNet [0xfe, 0x80, 0, 0, 0, 0, 0, 0, 0, 0, 0, 0, 0, 0, 0, 1] [],
              .IPNet [192, 168, 1, 5] [], .IPNet [192, 168, 1, 6] []]⟩,
           ⟨"wlan1", [.IPNet [10, 0, 0, 2] []]⟩]⟩ =
      .ok ⟨"myhost", "192.168.1.5", "fe80::1"⟩ := by
  decide

end Ddns
